import Mathlib

/-!
Verification of the go-oceanconnect client library core: the
authenticated-request pipeline (session/token lifecycle and serialized
dispatch) and the operation-handler helpers, shallowly embedded from
src/client.go and src/data_collection.go.

Times are modelled as `Int` nanoseconds (Go `time.Time`/`time.Duration`);
`t1.Before(t2)` is `t1 < t2` and `t.Add(d)` is `t + d`.  Fallible external
effects (TLS key-pair loading, the login exchange, the HTTP transport) are
passed in as explicit outcomes so the client logic stays a pure function.
-/

namespace Oceanconnect

/-- One Go `time.Minute` in nanoseconds. -/
def timeMinute : Int := 60 * 1000000000

/-- The lookahead window `time.Minute * 5` used in `doRequest`
(src/client.go line 88). -/
def safetyMargin : Int := timeMinute * 5

/-- Client configuration, from the `Config` struct (src/client.go lines
21-34). -/
structure Config where
  certFile : String
  certKeyFile : String
  url : String
  appID : String
  secret : String
  manufacturerName : String
  manufacturerID : String
  endUserID : String
  location : String
  deviceType : String
  model : String
deriving Repr, DecidableEq

/-- The mutable session fields of the `Client` struct (src/client.go lines
40-41): `token` and `tokenExpires`.  A fresh client has `token = ""` and
`tokenExpires = 0` (Go zero values). -/
structure ClientState where
  token : String
  tokenExpires : Int
deriving Repr, DecidableEq

/-- The freshness check of src/client.go line 88:
`c.tokenExpires.Before(time.Now().Add(time.Minute * 5))`. -/
def tokenNeedsRefresh (st : ClientState) (now : Int) : Bool :=
  st.tokenExpires < now + safetyMargin

/-- An outbound HTTP request: method, URL and the ordered list of header
add operations (Go `req.Header.Add` appends), plus an opaque body. -/
structure Request where
  method : String
  url : String
  headers : List (String × String)
  body : Option (List Nat)
deriving Repr, DecidableEq

/-- An HTTP response as the transport returns it: status code, status text
and raw body bytes. -/
structure HttpResponse where
  statusCode : Nat
  status : String
  body : List Nat
deriving Repr, DecidableEq

/-- The three `req.Header.Add` calls of src/client.go lines 94-96. -/
def attachHeaders (cfg : Config) (token : String) (r : Request) : Request :=
  { r with headers := r.headers ++
      [("app_key", cfg.appID),
       ("Authorization", token),
       ("Content-Type", "application/json")] }

/-- Modelled from the spec: the `Login` exchange (`c.Login()` at
src/client.go line 89 is defined in a repository file not under src/).
Per spec section 4.1, on success it atomically replaces `token` and
`expiresAt` together with the values returned by the server; on failure the
session state is left unchanged and the error is returned.  The server
outcome (a token/expiry pair, or an error) is a parameter. -/
def loginModel (st : ClientState) (serverResp : Except String (String × Int)) :
    ClientState × Option String :=
  match serverResp with
  | .error e => (st, some e)
  | .ok (t, e) => (⟨t, e⟩, none)

/-- Everything observable about one `doRequest` call: the session state on
exit, whether a login was attempted, the primary network call issued via
`c.c.Do` (with its final headers) if any, and the value returned to the
caller. -/
structure DoRequestOutcome where
  finalState : ClientState
  loginAttempted : Bool
  primaryCall : Option Request
  result : Except String HttpResponse
deriving Repr

/-- `doRequest` (src/client.go lines 85-98), as executed under the mutex:
check token freshness; log in if needed, returning the login error without
any network call when the login fails; attach the three headers; issue the
call and return its result verbatim.  The transport `c.c.Do` is the
parameter `doFn`; the login server outcome is `loginResp`. -/
def doRequest (cfg : Config) (st : ClientState) (now : Int)
    (loginResp : Except String (String × Int))
    (doFn : Request → Except String HttpResponse)
    (req : Request) : DoRequestOutcome :=
  if tokenNeedsRefresh st now then
    match loginModel st loginResp with
    | (st2, some e) => ⟨st2, true, none, .error e⟩
    | (st2, none) =>
      let r := attachHeaders cfg st2.token req
      ⟨st2, true, some r, doFn r⟩
  else
    let r := attachHeaders cfg st.token req
    ⟨st, false, some r, doFn r⟩

/-- `http.NewRequest` on the success path (src/client.go line 78): a fresh
request with no headers yet. -/
def newRequest (method url : String) (body : Option (List Nat)) : Request :=
  ⟨method, url, [], body⟩

/-- `request` (src/client.go lines 77-83): prefix the configured base URL
and dispatch through `doRequest`. -/
def request (cfg : Config) (st : ClientState) (now : Int)
    (loginResp : Except String (String × Int))
    (doFn : Request → Except String HttpResponse)
    (method urlStr : String) (body : Option (List Nat)) : DoRequestOutcome :=
  doRequest cfg st now loginResp doFn (newRequest method (cfg.url ++ urlStr) body)

/-- An opaque loaded client certificate (`tls.Certificate`). -/
structure Certificate where
  id : Nat
deriving Repr, DecidableEq

/-- The `tls.Config` built in `NewClient` (src/client.go lines 65-68). -/
structure TLSConfig where
  certificates : List Certificate
  insecureSkipVerify : Bool
deriving Repr, DecidableEq

/-- The `http.Transport` of src/client.go line 72. -/
structure Transport where
  tlsClientConfig : TLSConfig
deriving Repr, DecidableEq

/-- The `http.Client` of src/client.go line 72. -/
structure HttpClient where
  transport : Transport
deriving Repr, DecidableEq

/-- The `Client` struct (src/client.go lines 37-43): http client,
configuration and the mutable session fields (zero-valued at
construction). -/
structure Client where
  c : HttpClient
  cfg : Config
  session : ClientState
deriving Repr, DecidableEq

/-- `NewClient` (src/client.go lines 58-75).  The outcome of
`tls.LoadX509KeyPair` is the parameter `loadResult`; on load failure the
error is returned at once and no client exists.  On success the TLS config
carries the loaded certificate and `InsecureSkipVerify: true`, and the
session fields are Go zero values. -/
def NewClient (c : Config) (loadResult : Except String Certificate) :
    Except String Client :=
  match loadResult with
  | .error e => .error e
  | .ok cert =>
    .ok { c := { transport := { tlsClientConfig :=
                  { certificates := [cert], insecureSkipVerify := true } } },
          cfg := c,
          session := ⟨"", 0⟩ }

/-- The `GetDevicesStruct` struct (src/client.go lines 46-55). -/
structure GetDevicesStruct where
  gatewayID : String
  nodeType : String
  pageNo : Int
  pageSize : Int
  status : String
  startTime : String
  endTime : String
  sort : String
deriving Repr, DecidableEq

/-- `strconv.Itoa`: decimal rendering of a Go `int`. -/
def itoa (n : Int) : String := toString n

/-- `getQueryStringForDeviceGet` (src/client.go lines 183-210), the ad-hoc
string concatenation exactly as written: each present optional field
appends `name=value&`, `pageNo` is always appended, and `sort` is appended
last with no trailing `&`. -/
def getQueryStringForDeviceGet (dev : GetDevicesStruct) : String :=
  let s := "/iocm/app/dm/v1.1.0/devices?"
  let s := if dev.gatewayID ≠ "" then s ++ "gatewayId=" ++ dev.gatewayID ++ "&" else s
  let s := if dev.nodeType ≠ "" then s ++ "nodeType=" ++ dev.nodeType ++ "&" else s
  let s := s ++ "pageNo=" ++ itoa dev.pageNo ++ "&"
  let s := if dev.pageSize ≠ 0 then s ++ "pageSize=" ++ itoa dev.pageSize ++ "&" else s
  let s := if dev.startTime ≠ "" then s ++ "startTime=" ++ dev.startTime ++ "&" else s
  let s := if dev.endTime ≠ "" then s ++ "endTime=" ++ dev.endTime ++ "&" else s
  let s := if dev.status ≠ "" then s ++ "status=" ++ dev.status ++ "&" else s
  let s := if dev.sort ≠ "" then s ++ "sort=" ++ dev.sort else s
  s

/-- The optional query parameters other than `sort`, as name/value pairs in
the fixed order the code emits them.  Used to state what
`getQueryStringForDeviceGet` actually produces. -/
def deviceQueryParams (dev : GetDevicesStruct) : List (String × String) :=
  (if dev.gatewayID ≠ "" then [("gatewayId", dev.gatewayID)] else []) ++
  (if dev.nodeType ≠ "" then [("nodeType", dev.nodeType)] else []) ++
  [("pageNo", itoa dev.pageNo)] ++
  (if dev.pageSize ≠ 0 then [("pageSize", itoa dev.pageSize)] else []) ++
  (if dev.startTime ≠ "" then [("startTime", dev.startTime)] else []) ++
  (if dev.endTime ≠ "" then [("endTime", dev.endTime)] else []) ++
  (if dev.status ≠ "" then [("status", dev.status)] else [])

/-- A structured query builder: starting from the base path, append each
parameter as `name=value&` in list order. -/
def buildQuery (base : String) (params : List (String × String)) : String :=
  params.foldl (fun acc p => acc ++ (p.1 ++ "=") ++ p.2 ++ "&") base

/-- The `regDevice` request body built by `RegisterDevice`
(src/data_collection.go lines 54-59). -/
structure RegDevice where
  verifyCode : String
  nodeID : String
  timeout : Nat
  endUserID : String
deriving Repr, DecidableEq

/-- The body construction of `RegisterDevice` (src/data_collection.go lines
61-72): the variadic `timeoutV ...uint` defaults to 0 when absent, the
IMEI fills both `verifyCode` and `nodeId`, and `endUserId` comes from the
configuration. -/
def registerDeviceBody (cfg : Config) (imei : String) (timeoutV : List Nat) :
    RegDevice :=
  { verifyCode := imei,
    nodeID := imei,
    timeout := match timeoutV with | [] => 0 | t :: _ => t,
    endUserID := cfg.endUserID }

/-!
## Concurrency model for the dispatch race

`doRequest` runs its whole body under `c.reqLock` (src/client.go lines
86-87, with the unlock deferred to return).  We model N threads each
performing one `doRequest` as an interleaved transition system: a thread
acquires the lock, runs the freshness check (logging in when the check of
line 88 fires; the successful login installs the granted session, modelled
from the spec since login.go is not under src/), starts the primary
network call, and finishes it releasing the lock.  Every step inside the
critical section requires holding the lock, which is exactly the mutex
discipline of the code.
-/

/-- Program counter of one thread executing `doRequest`. -/
inductive Pc where
  | start
  | locked
  | checked
  | doing
  | done
deriving Repr, DecidableEq

/-- Global state of the N-thread dispatch race: the mutex owner, each
thread's program counter, the shared session, and how many login network
calls have been issued. -/
structure RaceState (n : Nat) where
  lockHolder : Option (Fin n)
  pcs : Fin n → Pc
  session : ClientState
  loginCount : Nat

/-- Environment of the race: the current time and the session granted by
the (successful) login exchange. -/
structure RaceEnv where
  now : Int
  grant : ClientState

/-- One interleaving step of the dispatch race.  `acquire` is
`c.reqLock.Lock()`; `checkLogin`/`checkReuse` are the line-88 freshness
check with and without the login it triggers; `doStart`/`doEnd` bracket
the `c.c.Do` call, and `doEnd` releases the lock (the deferred unlock). -/
inductive RaceStep (env : RaceEnv) : {n : Nat} → RaceState n → RaceState n → Prop where
  | acquire {n} (s : RaceState n) (t : Fin n) :
      s.pcs t = .start → s.lockHolder = none →
      RaceStep env s
        { s with
            lockHolder := some t,
            pcs := Function.update s.pcs t .locked }
  | checkLogin {n} (s : RaceState n) (t : Fin n) :
      s.pcs t = .locked → s.lockHolder = some t →
      tokenNeedsRefresh s.session env.now = true →
      RaceStep env s
        { s with
            session := env.grant,
            loginCount := s.loginCount + 1,
            pcs := Function.update s.pcs t .checked }
  | checkReuse {n} (s : RaceState n) (t : Fin n) :
      s.pcs t = .locked → s.lockHolder = some t →
      tokenNeedsRefresh s.session env.now = false →
      RaceStep env s { s with pcs := Function.update s.pcs t .checked }
  | doStart {n} (s : RaceState n) (t : Fin n) :
      s.pcs t = .checked → s.lockHolder = some t →
      RaceStep env s { s with pcs := Function.update s.pcs t .doing }
  | doEnd {n} (s : RaceState n) (t : Fin n) :
      s.pcs t = .doing → s.lockHolder = some t →
      RaceStep env s
        { s with
            lockHolder := none,
            pcs := Function.update s.pcs t .done }

/-- Initial race state: lock free, every thread about to call `doRequest`,
session as constructed, no login issued yet. -/
def initState (n : Nat) (init : ClientState) : RaceState n :=
  ⟨none, fun _ => .start, init, 0⟩

/-- States reachable by interleaving the N threads from the initial
state. -/
inductive Reachable (env : RaceEnv) (init : ClientState) :
    {n : Nat} → RaceState n → Prop where
  | init {n} : Reachable env init (initState n init)
  | step {n} {s s2 : RaceState n} :
      Reachable env init s → RaceStep env s s2 → Reachable env init s2

/-- Thread `t` is inside the mutex-protected critical section. -/
def inCS {n : Nat} (s : RaceState n) (t : Fin n) : Prop :=
  s.pcs t = .locked ∨ s.pcs t = .checked ∨ s.pcs t = .doing

/-- Inductive invariant of the dispatch race (when the initial session is
stale and the granted session is fresh): only the lock holder is in the
critical section, at most one login is ever issued, the session is either
the initial one (before the login) or the granted one (after), and the
login has happened exactly when some thread has passed the freshness
check. -/
structure RaceInv (env : RaceEnv) (init : ClientState) {n : Nat}
    (s : RaceState n) : Prop where
  holder : ∀ t, inCS s t → s.lockHolder = some t
  count_le : s.loginCount ≤ 1
  sess0 : s.loginCount = 0 → s.session = init
  sess1 : s.loginCount = 1 → s.session = env.grant
  count0 : s.loginCount = 0 ↔ ∀ t, s.pcs t = .start ∨ s.pcs t = .locked

/-- A sample configuration used to evaluate the theorems on concrete
inputs. -/
def cfgEx : Config :=
  ⟨"cert.pem", "key.pem", "https://host", "app1", "sec1",
   "maker", "maker1", "user1", "loc1", "dt1", "m1"⟩

/-- A sample transport that always answers 200 OK with an empty body. -/
def doFnEx : Request → Except String HttpResponse :=
  fun _ => .ok ⟨200, "200 OK", []⟩

/-- A sample outbound request before dispatch. -/
def reqEx : Request := newRequest "GET" "https://host/x" none

theorem raceInv_step (env : RaceEnv) (init : ClientState)
    (hstale : tokenNeedsRefresh init env.now = true)
    (hfresh : tokenNeedsRefresh env.grant env.now = false)
    {n : Nat} {s s2 : RaceState n}
    (inv : RaceInv env init s) (hs : RaceStep env s s2) :
    RaceInv env init s2 := by
  cases hs with
  | acquire t hpc hlock =>
    refine ⟨?_, inv.count_le, inv.sess0, inv.sess1, ?_⟩
    · intro t2 h2
      by_cases het : t2 = t
      · subst het; rfl
      · exfalso
        have h3 : inCS s t2 := by
          simpa [inCS, Function.update, het] using h2
        have h4 := inv.holder t2 h3
        rw [hlock] at h4
        exact Option.noConfusion h4
    · constructor
      · intro h0 t2
        by_cases het : t2 = t
        · subst het; right; simp [Function.update]
        · have h5 := inv.count0.mp h0 t2
          simpa [Function.update, het] using h5
      · intro hall
        apply inv.count0.mpr
        intro t2
        by_cases het : t2 = t
        · subst het; left; exact hpc
        · have h5 := hall t2
          simpa [Function.update, het] using h5
  | checkLogin t hpc hlock hst =>
    have h0 : s.loginCount = 0 := by
      rcases Nat.eq_or_lt_of_le inv.count_le with h1 | h1
      · exfalso
        have h2 := inv.sess1 h1
        rw [h2, hfresh] at hst
        exact Bool.noConfusion hst
      · omega
    refine ⟨?_, ?_, ?_, fun _ => rfl, ?_⟩
    · intro t2 h2
      by_cases het : t2 = t
      · subst het; exact hlock
      · have h3 : inCS s t2 := by
          simpa [inCS, Function.update, het] using h2
        exact inv.holder t2 h3
    · simp [h0]
    · intro hc
      simp [h0] at hc
    · constructor
      · intro hc
        simp [h0] at hc
      · intro hall
        exfalso
        have h5 := hall t
        simp [Function.update] at h5
  | checkReuse t hpc hlock hfr =>
    have h1 : s.loginCount = 1 := by
      rcases Nat.eq_or_lt_of_le inv.count_le with h1 | h1
      · exact h1
      · exfalso
        have h0 : s.loginCount = 0 := by omega
        have h2 := inv.sess0 h0
        rw [h2, hstale] at hfr
        exact Bool.noConfusion hfr
    refine ⟨?_, inv.count_le, inv.sess0, inv.sess1, ?_⟩
    · intro t2 h2
      by_cases het : t2 = t
      · subst het; exact hlock
      · have h3 : inCS s t2 := by
          simpa [inCS, Function.update, het] using h2
        exact inv.holder t2 h3
    · constructor
      · intro hc
        exfalso
        simp at hc
        omega
      · intro hall
        exfalso
        have h5 := hall t
        simp [Function.update] at h5
  | doStart t hpc hlock =>
    have h1 : s.loginCount ≠ 0 := by
      intro h0
      have h5 := inv.count0.mp h0 t
      rw [hpc] at h5
      simp at h5
    refine ⟨?_, inv.count_le, inv.sess0, inv.sess1, ?_⟩
    · intro t2 h2
      by_cases het : t2 = t
      · subst het; exact hlock
      · have h3 : inCS s t2 := by
          simpa [inCS, Function.update, het] using h2
        exact inv.holder t2 h3
    · constructor
      · intro hc
        exact absurd hc h1
      · intro hall
        exfalso
        have h5 := hall t
        simp [Function.update] at h5
  | doEnd t hpc hlock =>
    have h1 : s.loginCount ≠ 0 := by
      intro h0
      have h5 := inv.count0.mp h0 t
      rw [hpc] at h5
      simp at h5
    refine ⟨?_, inv.count_le, inv.sess0, inv.sess1, ?_⟩
    · intro t2 h2
      exfalso
      by_cases het : t2 = t
      · subst het
        simp [inCS, Function.update] at h2
      · have h3 : inCS s t2 := by
          simpa [inCS, Function.update, het] using h2
        have h4 := inv.holder t2 h3
        rw [hlock] at h4
        have h6 : t = t2 := by
          injection h4
        exact het h6.symm
    · constructor
      · intro hc
        exact absurd hc h1
      · intro hall
        exfalso
        have h5 := hall t
        simp [Function.update] at h5

theorem raceInv_reachable (env : RaceEnv) (init : ClientState)
    (hstale : tokenNeedsRefresh init env.now = true)
    (hfresh : tokenNeedsRefresh env.grant env.now = false)
    {n : Nat} {s : RaceState n}
    (hr : Reachable env init s) : RaceInv env init s := by
  induction hr with
  | init =>
    refine ⟨?_, by simp [initState], fun _ => rfl, ?_, by simp [initState]⟩
    · intro t h
      simp [inCS, initState] at h
    · intro h
      simp [initState] at h
  | step hr hs ih =>
    exact raceInv_step env init hstale hfresh ih hs

theorem doRequest_stale_err (cfg : Config) (st : ClientState) (now : Int)
    (e : String) (doFn : Request → Except String HttpResponse) (req : Request)
    (h : tokenNeedsRefresh st now = true) :
    doRequest cfg st now (.error e) doFn req = ⟨st, true, none, .error e⟩ := by
  simp [doRequest, h, loginModel]

theorem doRequest_stale_ok (cfg : Config) (st : ClientState) (now : Int)
    (t : String) (ex : Int) (doFn : Request → Except String HttpResponse)
    (req : Request) (h : tokenNeedsRefresh st now = true) :
    doRequest cfg st now (.ok (t, ex)) doFn req =
      ⟨⟨t, ex⟩, true, some (attachHeaders cfg t req),
       doFn (attachHeaders cfg t req)⟩ := by
  simp [doRequest, h, loginModel]

theorem doRequest_fresh (cfg : Config) (st : ClientState) (now : Int)
    (loginResp : Except String (String × Int))
    (doFn : Request → Except String HttpResponse) (req : Request)
    (h : tokenNeedsRefresh st now = false) :
    doRequest cfg st now loginResp doFn req =
      ⟨st, false, some (attachHeaders cfg st.token req),
       doFn (attachHeaders cfg st.token req)⟩ := by
  simp [doRequest, h]

/-- C1: every primary network call issued by `doRequest` attaches an
`Authorization` header holding the session token of the exit state, and
that state's recorded expiry is at least the 5-minute safety margin past
`now`; moreover a login is attempted exactly when `tokenExpires` is before
`now` plus 5 minutes, and otherwise the stored session is reused
unchanged.  The hypothesis is the spec-modelled `Login` postcondition: a
successful login grants an expiry at least the safety margin in the
future. -/
theorem doRequest_freshness_invariant (cfg : Config) (st : ClientState)
    (now : Int) (loginResp : Except String (String × Int))
    (doFn : Request → Except String HttpResponse) (req : Request)
    (hgrant : ∀ t ex, loginResp = .ok (t, ex) → now + safetyMargin ≤ ex) :
    ((doRequest cfg st now loginResp doFn req).loginAttempted = true ↔
      st.tokenExpires < now + safetyMargin) ∧
    ((doRequest cfg st now loginResp doFn req).loginAttempted = false →
      (doRequest cfg st now loginResp doFn req).finalState = st) ∧
    (∀ r, (doRequest cfg st now loginResp doFn req).primaryCall = some r →
      ("Authorization",
        (doRequest cfg st now loginResp doFn req).finalState.token) ∈ r.headers ∧
      now + safetyMargin ≤
        (doRequest cfg st now loginResp doFn req).finalState.tokenExpires) := by
  cases hb : tokenNeedsRefresh st now with
  | false =>
    have hnot : ¬ st.tokenExpires < now + safetyMargin := by
      simpa [tokenNeedsRefresh] using hb
    rw [doRequest_fresh cfg st now loginResp doFn req hb]
    refine ⟨by simpa using hnot, fun _ => rfl, ?_⟩
    intro r hr
    have hr2 : attachHeaders cfg st.token req = r := by
      simpa using hr
    subst hr2
    exact ⟨by simp [attachHeaders], by simpa using not_lt.mp hnot⟩
  | true =>
    have hlt : st.tokenExpires < now + safetyMargin := by
      simpa [tokenNeedsRefresh] using hb
    cases loginResp with
    | error e =>
      rw [doRequest_stale_err cfg st now e doFn req hb]
      exact ⟨by simpa using hlt, by simp, by simp⟩
    | ok p =>
      obtain ⟨t, ex⟩ := p
      have hex := hgrant t ex rfl
      rw [doRequest_stale_ok cfg st now t ex doFn req hb]
      refine ⟨by simpa using hlt, by simp, ?_⟩
      intro r hr
      have hr2 : attachHeaders cfg t req = r := by
        simpa using hr
      subst hr2
      exact ⟨by simp [attachHeaders], hex⟩

/-- C1 witness: a concrete stale session at time 0 with a granted expiry of
one hour; the invariant theorem applies. -/
theorem doRequest_freshness_invariant_witness :
    (∀ t ex, (Except.ok ("T1", 3600 * 1000000000) :
        Except String (String × Int)) = .ok (t, ex) →
      (0 : Int) + safetyMargin ≤ ex) ∧
    (((doRequest cfgEx ⟨"", 0⟩ 0 (.ok ("T1", 3600 * 1000000000)) doFnEx
        reqEx).loginAttempted = true ↔
      (0 : Int) < 0 + safetyMargin) ∧
    ((doRequest cfgEx ⟨"", 0⟩ 0 (.ok ("T1", 3600 * 1000000000)) doFnEx
        reqEx).loginAttempted = false →
      (doRequest cfgEx ⟨"", 0⟩ 0 (.ok ("T1", 3600 * 1000000000)) doFnEx
        reqEx).finalState = ⟨"", 0⟩) ∧
    (∀ r, (doRequest cfgEx ⟨"", 0⟩ 0 (.ok ("T1", 3600 * 1000000000)) doFnEx
        reqEx).primaryCall = some r →
      ("Authorization",
        (doRequest cfgEx ⟨"", 0⟩ 0 (.ok ("T1", 3600 * 1000000000)) doFnEx
          reqEx).finalState.token) ∈ r.headers ∧
      (0 : Int) + safetyMargin ≤
        (doRequest cfgEx ⟨"", 0⟩ 0 (.ok ("T1", 3600 * 1000000000)) doFnEx
          reqEx).finalState.tokenExpires)) :=
  ⟨by intro t ex h; injection h with h2; injection h2 with ha hb; rw [← hb]; decide,
   doRequest_freshness_invariant cfgEx ⟨"", 0⟩ 0 _ doFnEx reqEx
     (by intro t ex h; injection h with h2; injection h2 with ha hb; rw [← hb]; decide)⟩

/-- C2: when the login triggered by `doRequest` fails, the session fields
are exactly as before the attempt and the login error is returned to the
caller. -/
theorem doRequest_login_failure_no_partial_update (cfg : Config)
    (st : ClientState) (now : Int) (e : String)
    (doFn : Request → Except String HttpResponse) (req : Request)
    (h : tokenNeedsRefresh st now = true) :
    (doRequest cfg st now (.error e) doFn req).finalState = st ∧
    (doRequest cfg st now (.error e) doFn req).result = .error e ∧
    loginModel st (.error e) = (st, some e) := by
  rw [doRequest_stale_err cfg st now e doFn req h]
  exact ⟨rfl, rfl, rfl⟩

/-- C2 witness: a fresh client whose login fails with "401": the session
stays at its zero value and the error comes back. -/
theorem doRequest_login_failure_no_partial_update_witness :
    tokenNeedsRefresh ⟨"", 0⟩ 0 = true ∧
    ((doRequest cfgEx ⟨"", 0⟩ 0 (.error "401") doFnEx reqEx).finalState =
      ⟨"", 0⟩ ∧
    (doRequest cfgEx ⟨"", 0⟩ 0 (.error "401") doFnEx reqEx).result =
      .error "401" ∧
    loginModel ⟨"", 0⟩ (.error "401") = (⟨"", 0⟩, some "401")) :=
  ⟨by decide,
   doRequest_login_failure_no_partial_update cfgEx ⟨"", 0⟩ 0 "401" doFnEx reqEx
     (by decide)⟩

/-- C3: when the freshness check requires a login and the login fails,
`doRequest` returns the login error and the primary network call is never
issued. -/
theorem doRequest_login_failure_no_primary_call (cfg : Config)
    (st : ClientState) (now : Int) (e : String)
    (doFn : Request → Except String HttpResponse) (req : Request)
    (h : tokenNeedsRefresh st now = true) :
    (doRequest cfg st now (.error e) doFn req).result = .error e ∧
    (doRequest cfg st now (.error e) doFn req).primaryCall = none := by
  rw [doRequest_stale_err cfg st now e doFn req h]
  exact ⟨rfl, rfl⟩

/-- C3 witness: the same failing-login scenario, concretely: the error is
returned and no primary call is recorded. -/
theorem doRequest_login_failure_no_primary_call_witness :
    tokenNeedsRefresh ⟨"", 0⟩ 0 = true ∧
    ((doRequest cfgEx ⟨"", 0⟩ 0 (.error "auth down") doFnEx reqEx).result =
      .error "auth down" ∧
    (doRequest cfgEx ⟨"", 0⟩ 0 (.error "auth down") doFnEx
      reqEx).primaryCall = none) :=
  ⟨by decide,
   doRequest_login_failure_no_primary_call cfgEx ⟨"", 0⟩ 0 "auth down" doFnEx
     reqEx (by decide)⟩

/-- C4: every request issued by `doRequest` carries exactly the three added
headers of src/client.go lines 94-96 — `app_key` with the configured
application identifier, `Authorization` with the current session token and
`Content-Type: application/json` — appended to the request's prior
headers. -/
theorem doRequest_adds_exact_headers (cfg : Config) (st : ClientState)
    (now : Int) (loginResp : Except String (String × Int))
    (doFn : Request → Except String HttpResponse) (req : Request)
    (r : Request)
    (h : (doRequest cfg st now loginResp doFn req).primaryCall = some r) :
    r.headers = req.headers ++
      [("app_key", cfg.appID),
       ("Authorization", (doRequest cfg st now loginResp doFn req).finalState.token),
       ("Content-Type", "application/json")] := by
  cases hb : tokenNeedsRefresh st now with
  | false =>
    rw [doRequest_fresh cfg st now loginResp doFn req hb] at h ⊢
    have hr2 : attachHeaders cfg st.token req = r := by
      simpa using h
    subst hr2
    simp [attachHeaders]
  | true =>
    cases loginResp with
    | error e =>
      rw [doRequest_stale_err cfg st now e doFn req hb] at h
      simp at h
    | ok p =>
      obtain ⟨t, ex⟩ := p
      rw [doRequest_stale_ok cfg st now t ex doFn req hb] at h ⊢
      have hr2 : attachHeaders cfg t req = r := by
        simpa using h
      subst hr2
      simp [attachHeaders]

/-- C4 witness: a fresh-token dispatch issues its call with exactly the
three added headers. -/
theorem doRequest_adds_exact_headers_witness :
    (doRequest cfgEx ⟨"T1", safetyMargin⟩ 0 (.error "unused") doFnEx
      reqEx).primaryCall = some (attachHeaders cfgEx "T1" reqEx) ∧
    (attachHeaders cfgEx "T1" reqEx).headers = reqEx.headers ++
      [("app_key", cfgEx.appID),
       ("Authorization",
         (doRequest cfgEx ⟨"T1", safetyMargin⟩ 0 (.error "unused") doFnEx
           reqEx).finalState.token),
       ("Content-Type", "application/json")] :=
  ⟨by decide,
   doRequest_adds_exact_headers cfgEx ⟨"T1", safetyMargin⟩ 0 (.error "unused")
     doFnEx reqEx (attachHeaders cfgEx "T1" reqEx) (by decide)⟩

/-- C5: `request`/`doRequest` hand back whatever the transport returns,
verbatim: when the primary call is issued its raw response (any status
code) or transport error is the returned value, undecoded and without
retry; when it is not issued nothing is returned but the login error. -/
theorem request_returns_transport_verbatim (cfg : Config) (st : ClientState)
    (now : Int) (loginResp : Except String (String × Int))
    (doFn : Request → Except String HttpResponse)
    (method urlStr : String) (body : Option (List Nat)) (r : Request)
    (h : (request cfg st now loginResp doFn method urlStr body).primaryCall =
      some r) :
    (request cfg st now loginResp doFn method urlStr body).result = doFn r ∧
    r.method = method ∧ r.url = cfg.url ++ urlStr ∧ r.body = body := by
  unfold request at h ⊢
  cases hb : tokenNeedsRefresh st now with
  | false =>
    rw [doRequest_fresh cfg st now loginResp doFn _ hb] at h ⊢
    have hr2 : attachHeaders cfg st.token (newRequest method (cfg.url ++ urlStr) body) = r := by
      simpa using h
    subst hr2
    exact ⟨rfl, rfl, rfl, rfl⟩
  | true =>
    cases loginResp with
    | error e =>
      rw [doRequest_stale_err cfg st now e doFn _ hb] at h
      simp at h
    | ok p =>
      obtain ⟨t, ex⟩ := p
      rw [doRequest_stale_ok cfg st now t ex doFn _ hb] at h ⊢
      have hr2 : attachHeaders cfg t (newRequest method (cfg.url ++ urlStr) body) = r := by
        simpa using h
      subst hr2
      exact ⟨rfl, rfl, rfl, rfl⟩

/-- C5 witness: with a fresh token and the sample transport the issued
call's raw 200 response comes back unchanged. -/
theorem request_returns_transport_verbatim_witness :
    (request cfgEx ⟨"T1", safetyMargin⟩ 0 (.error "unused") doFnEx "GET"
      "/d" none).primaryCall =
      some (attachHeaders cfgEx "T1" (newRequest "GET" (cfgEx.url ++ "/d") none)) ∧
    ((request cfgEx ⟨"T1", safetyMargin⟩ 0 (.error "unused") doFnEx "GET"
      "/d" none).result =
      doFnEx (attachHeaders cfgEx "T1" (newRequest "GET" (cfgEx.url ++ "/d") none)) ∧
    (attachHeaders cfgEx "T1" (newRequest "GET" (cfgEx.url ++ "/d") none)).method = "GET" ∧
    (attachHeaders cfgEx "T1" (newRequest "GET" (cfgEx.url ++ "/d") none)).url =
      cfgEx.url ++ "/d" ∧
    (attachHeaders cfgEx "T1" (newRequest "GET" (cfgEx.url ++ "/d") none)).body = none) :=
  ⟨by decide,
   request_returns_transport_verbatim cfgEx ⟨"T1", safetyMargin⟩ 0
     (.error "unused") doFnEx "GET" "/d" none
     (attachHeaders cfgEx "T1" (newRequest "GET" (cfgEx.url ++ "/d") none))
     (by decide)⟩

/-- C6: in the mutex-serialized dispatch race starting with no valid
session (and a login that grants a fresh expiry), every reachable state
has at most one login issued; once every thread has completed exactly one
login was issued; the session any thread observes after the login is the
one that login populated; and no two primary network calls are in flight
at the same moment. -/
theorem dispatchRace_single_login (env : RaceEnv) (init : ClientState)
    (hstale : tokenNeedsRefresh init env.now = true)
    (hfresh : tokenNeedsRefresh env.grant env.now = false)
    {n : Nat} {s : RaceState n} (hr : Reachable env init s) :
    (∀ t1 t2 : Fin n, s.pcs t1 = .doing → s.pcs t2 = .doing → t1 = t2) ∧
    s.loginCount ≤ 1 ∧
    ((∀ t, s.pcs t = .done) → ∀ t0 : Fin n, s.loginCount = 1) ∧
    (s.loginCount = 1 → s.session = env.grant) := by
  have inv := raceInv_reachable env init hstale hfresh hr
  refine ⟨?_, inv.count_le, ?_, inv.sess1⟩
  · intro t1 t2 h1 h2
    have ha := inv.holder t1 (Or.inr (Or.inr h1))
    have hb := inv.holder t2 (Or.inr (Or.inr h2))
    rw [ha] at hb
    injection hb
  · intro hall t0
    rcases Nat.eq_or_lt_of_le inv.count_le with h1 | h1
    · exact h1
    · exfalso
      have h0 : s.loginCount = 0 := by omega
      have h5 := inv.count0.mp h0 t0
      rw [hall t0] at h5
      simp at h5

/-- C6 witness: one thread, time 0, an unauthenticated initial session and
a one-hour grant; the race theorem applies at the initial state. -/
theorem dispatchRace_single_login_witness :
    tokenNeedsRefresh ⟨"", 0⟩ 0 = true ∧
    tokenNeedsRefresh ⟨"T1", 3600 * 1000000000⟩ 0 = false ∧
    ((∀ t1 t2 : Fin 1,
        (initState 1 ⟨"", 0⟩).pcs t1 = .doing →
        (initState 1 ⟨"", 0⟩).pcs t2 = .doing → t1 = t2) ∧
    (initState 1 ⟨"", 0⟩).loginCount ≤ 1 ∧
    ((∀ t, (initState 1 ⟨"", 0⟩).pcs t = .done) → ∀ t0 : Fin 1,
      (initState 1 ⟨"", 0⟩).loginCount = 1) ∧
    ((initState 1 ⟨"", 0⟩).loginCount = 1 →
      (initState 1 ⟨"", 0⟩).session = ⟨"T1", 3600 * 1000000000⟩)) :=
  ⟨by decide, by decide,
   dispatchRace_single_login ⟨0, ⟨"T1", 3600 * 1000000000⟩⟩ ⟨"", 0⟩
     (by decide) (by decide)
     (Reachable.init :
       Reachable ⟨0, ⟨"T1", 3600 * 1000000000⟩⟩ ⟨"", 0⟩ (initState 1 ⟨"", 0⟩))⟩

/-- C7: when the certificate/key pair cannot be loaded, `NewClient` returns
that error immediately and no client value (hence no session) exists. -/
theorem newClient_load_failure (c : Config) (e : String) :
    NewClient c (.error e) = .error e ∧
    ∀ cl : Client, NewClient c (.error e) ≠ .ok cl := by
  refine ⟨rfl, ?_⟩
  intro cl hc
  simp [NewClient] at hc

/-- C9: every successfully constructed client has
`InsecureSkipVerify: true` in its transport TLS configuration: the remote
server certificate is never validated. -/
theorem newClient_insecure_skip_verify (c : Config)
    (loadResult : Except String Certificate) (cl : Client)
    (h : NewClient c loadResult = .ok cl) :
    cl.c.transport.tlsClientConfig.insecureSkipVerify = true := by
  cases loadResult with
  | error e => simp [NewClient] at h
  | ok cert =>
    simp [NewClient] at h
    rw [← h]

/-- C9 witness: a concretely constructed client skips server-certificate
verification. -/
theorem newClient_insecure_skip_verify_witness :
    NewClient cfgEx (.ok ⟨0⟩) = .ok
      ⟨⟨⟨⟨[⟨0⟩], true⟩⟩⟩, cfgEx, ⟨"", 0⟩⟩ ∧
    (⟨⟨⟨⟨[⟨0⟩], true⟩⟩⟩, cfgEx, ⟨"", 0⟩⟩ :
      Client).c.transport.tlsClientConfig.insecureSkipVerify = true :=
  ⟨rfl, newClient_insecure_skip_verify cfgEx (.ok ⟨0⟩) _ rfl⟩

/-- C10: `RegisterDevice` without a timeout argument sends `timeout = 0`,
and for every call the IMEI fills both `verifyCode` and `nodeId` while
`endUserId` comes from the configuration. -/
theorem registerDevice_body_fields (cfg : Config) (imei : String) :
    (registerDeviceBody cfg imei []).timeout = 0 ∧
    ∀ timeoutV : List Nat,
      (registerDeviceBody cfg imei timeoutV).verifyCode = imei ∧
      (registerDeviceBody cfg imei timeoutV).nodeID = imei ∧
      (registerDeviceBody cfg imei timeoutV).endUserID = cfg.endUserID :=
  ⟨rfl, fun _ => ⟨rfl, rfl, rfl⟩⟩

/-- C8 counterexample: for the all-default `GetDevicesStruct` the built
query string is `/iocm/app/dm/v1.1.0/devices?pageNo=0&`, whose last
character is the separator `&` — the claim that the string contains no
trailing separator is false on the code. -/
theorem getQueryString_trailing_separator :
    getQueryStringForDeviceGet ⟨"", "", 0, 0, "", "", "", ""⟩ =
      "/iocm/app/dm/v1.1.0/devices?pageNo=0&" ∧
    "/iocm/app/dm/v1.1.0/devices?pageNo=0&".data.getLast? = some '&' := by
  constructor
  · rfl
  · decide

theorem buildQuery_last (base : String) (l : List (String × String))
    (h : l ≠ []) : (buildQuery base l).data.getLast? = some '&' := by
  induction l generalizing base with
  | nil => exact absurd rfl h
  | cons p l ih =>
    cases l with
    | nil =>
      show (base ++ (p.1 ++ "=") ++ p.2 ++ "&").data.getLast? = some '&'
      rw [String.data_append]
      rw [List.getLast?_concat]
    | cons q l2 =>
      exact ih _ (List.cons_ne_nil q l2)

set_option maxHeartbeats 3200000 in
/-- C8 (amended): `getQueryStringForDeviceGet` renders each present
optional parameter as `name=value` in the fixed stable order gatewayId,
nodeType, pageNo, pageSize, startTime, endTime, status, sort; `pageNo` is
always present (so the `?` never dangles bare) and every parameter except
`sort` is followed by `&`, so the string ends with a trailing `&`
whenever `Sort` is empty. -/
theorem getQueryString_structured (dev : GetDevicesStruct) :
    getQueryStringForDeviceGet dev =
      (if dev.sort ≠ "" then
        buildQuery "/iocm/app/dm/v1.1.0/devices?" (deviceQueryParams dev) ++
          "sort=" ++ dev.sort
       else buildQuery "/iocm/app/dm/v1.1.0/devices?" (deviceQueryParams dev)) ∧
    (dev.sort = "" →
      (getQueryStringForDeviceGet dev).data.getLast? = some '&') := by
  have hmain : getQueryStringForDeviceGet dev =
      (if dev.sort ≠ "" then
        buildQuery "/iocm/app/dm/v1.1.0/devices?" (deviceQueryParams dev) ++
          "sort=" ++ dev.sort
       else buildQuery "/iocm/app/dm/v1.1.0/devices?" (deviceQueryParams dev)) := by
    simp only [getQueryStringForDeviceGet, deviceQueryParams, buildQuery]
    split_ifs <;> rfl
  refine ⟨hmain, ?_⟩
  intro hs
  rw [hmain, if_neg (by simp [hs])]
  exact buildQuery_last _ _ (by simp [deviceQueryParams])

/-- C7 witness: a concrete unreadable-certificate error propagates and no
client value exists. -/
theorem newClient_load_failure_witness :
    NewClient cfgEx (.error "no such file") = .error "no such file" ∧
    ∀ cl : Client, NewClient cfgEx (.error "no such file") ≠ .ok cl :=
  newClient_load_failure cfgEx "no such file"

/-- C8 (amended) witness: the structured form evaluated at a concrete
struct with a gateway filter and page number 2 and no sort. -/
theorem getQueryString_structured_witness :
    getQueryStringForDeviceGet ⟨"g1", "", 2, 0, "", "", "", ""⟩ =
      (if ("" : String) ≠ "" then
        buildQuery "/iocm/app/dm/v1.1.0/devices?"
          (deviceQueryParams ⟨"g1", "", 2, 0, "", "", "", ""⟩) ++
          "sort=" ++ ""
       else buildQuery "/iocm/app/dm/v1.1.0/devices?"
          (deviceQueryParams ⟨"g1", "", 2, 0, "", "", "", ""⟩)) ∧
    (("" : String) = "" →
      (getQueryStringForDeviceGet
        ⟨"g1", "", 2, 0, "", "", "", ""⟩).data.getLast? = some '&') :=
  getQueryString_structured ⟨"g1", "", 2, 0, "", "", "", ""⟩

/-- C10 witness: a concrete IMEI registration body. -/
theorem registerDevice_body_fields_witness :
    (registerDeviceBody cfgEx "860000000000001" []).timeout = 0 ∧
    ∀ timeoutV : List Nat,
      (registerDeviceBody cfgEx "860000000000001" timeoutV).verifyCode =
        "860000000000001" ∧
      (registerDeviceBody cfgEx "860000000000001" timeoutV).nodeID =
        "860000000000001" ∧
      (registerDeviceBody cfgEx "860000000000001" timeoutV).endUserID =
        cfgEx.endUserID :=
  registerDevice_body_fields cfgEx "860000000000001"

end Oceanconnect
